import Mathlib

/-!
Verification development for `src/gnina/training.py` (gnina-torch): a shallow
embedding of the training/evaluation orchestration engine — the training step
strategies, evaluation step strategies, metric bookkeeping, adaptive
learning-rate control and checkpoint persistence — together with theorems
settling the specification claims about them.

Tensors, model parameters, gradients and optimizer internals are opaque type
parameters: the spec places the tensor substrate, network architectures and the
optimizer update rule out of scope, so the embedding records the calls made to
these collaborators (as an effect trace and explicit state passing) and keeps
the scalar loss arithmetic exact over `ℚ`.
-/

namespace Gnina

/-- One observable side effect performed by a training or evaluation step, in
the order the source performs the corresponding calls.  `clipGradNorm`
corresponds to `nn.utils.clip_grad_norm_` (clipping by total norm);
`clipGradValue` corresponds to the distinct primitive `nn.utils.clip_grad_value_`
(per-element clipping), which the source never calls.  `forward` records the
model mode flag and the gradient-tracking flag in force during the forward
pass. -/
inductive Effect where
  | modelTrain : Effect
  | modelEval : Effect
  | zeroGrad : Effect
  | forward (trainingMode : Bool) (gradEnabled : Bool) : Effect
  | computeLoss : Effect
  | backward : Effect
  | clipGradNorm (threshold : ℚ) : Effect
  | clipGradValue (threshold : ℚ) : Effect
  | noGradEnter : Effect
  | noGradExit : Effect
  | optimizerStep : Effect
  deriving DecidableEq, Repr

/-- Mutable state threaded through one step: model parameters `params`,
accumulated gradients `grads`, optimizer internal state `optState`, the
module's train/eval mode flag, the autograd gradient-tracking flag, and the
trace of effects performed so far. -/
structure StepState (P G O : Type) where
  params : P
  grads : G
  optState : O
  trainingMode : Bool
  gradEnabled : Bool
  trace : List Effect

variable {P G O Gr Lb Af PL AP : Type}

/-- `model.train()`: switches the module to training mode; touches no
parameters. -/
def model_train (s : StepState P G O) : StepState P G O :=
  { s with trainingMode := true, trace := s.trace ++ [Effect.modelTrain] }

/-- `model.eval()`: switches the module to inference mode; touches no
parameters. -/
def model_eval (s : StepState P G O) : StepState P G O :=
  { s with trainingMode := false, trace := s.trace ++ [Effect.modelEval] }

/-- `optimizer.zero_grad()`: resets the accumulated gradients to the zero
gradient `gzero`. -/
def zero_grad (gzero : G) (s : StepState P G O) : StepState P G O :=
  { s with grads := gzero, trace := s.trace ++ [Effect.zeroGrad] }

/-- Embedding of `_train_step_pose` (src/gnina/training.py lines 214-267).
The external collaborators are passed in: `model` is the forward pass as a
pure function of the parameters, `backwardFn` produces the gradients of the
loss (`loss.backward()`), `clipNormFn` is `nn.utils.clip_grad_norm_`, and
`optStep` is the optimizer's in-place update (`optimizer.step()`).  Returns
the updated state and the reported scalar loss (`loss.item()`). -/
def train_step_pose (model : P → Gr → PL) (pose_loss : PL → Lb → ℚ)
    (backwardFn : P → ℚ → G) (clipNormFn : ℚ → G → G) (optStep : O → P → G → P × O)
    (gzero : G) (clip_gradients : ℚ) (s0 : StepState P G O) (batch : Gr × Lb) :
    StepState P G O × ℚ :=
  -- model.train()
  let s := model_train s0
  -- optimizer.zero_grad()
  let s := zero_grad gzero s
  -- grids, labels = batch
  let grids := batch.1
  let labels := batch.2
  -- pose_log = model(grids)
  let pose_log := model s.params grids
  let s := { s with trace := s.trace ++ [Effect.forward s.trainingMode s.gradEnabled] }
  -- loss = pose_loss(pose_log, labels)
  let loss := pose_loss pose_log labels
  let s := { s with trace := s.trace ++ [Effect.computeLoss] }
  -- loss.backward()
  let s := { s with grads := backwardFn s.params loss, trace := s.trace ++ [Effect.backward] }
  -- nn.utils.clip_grad_norm_(model.parameters(), clip_gradients)
  let s := { s with grads := clipNormFn clip_gradients s.grads,
                    trace := s.trace ++ [Effect.clipGradNorm clip_gradients] }
  -- optimizer.step()
  let pq := optStep s.optState s.params s.grads
  let s := { s with params := pq.1, optState := pq.2,
                    trace := s.trace ++ [Effect.optimizerStep] }
  -- return loss.item()
  (s, loss)

/-- Embedding of `_train_step_pose_and_affinity` (src/gnina/training.py lines
270-326).  The forward pass yields the pair `(pose_log, affinities_pred)` and
the loss is `pose_loss(pose_log, labels) + affinity_loss(affinities_pred,
affinities)`, exactly as on source line 317. -/
def train_step_pose_and_affinity (model : P → Gr → PL × AP)
    (pose_loss : PL → Lb → ℚ) (affinity_loss : AP → Af → ℚ)
    (backwardFn : P → ℚ → G) (clipNormFn : ℚ → G → G) (optStep : O → P → G → P × O)
    (gzero : G) (clip_gradients : ℚ) (s0 : StepState P G O)
    (batch : Gr × Lb × Af) : StepState P G O × ℚ :=
  -- model.train()
  let s := model_train s0
  -- optimizer.zero_grad()
  let s := zero_grad gzero s
  -- grids, labels, affinities = batch
  let grids := batch.1
  let labels := batch.2.1
  let affinities := batch.2.2
  -- pose_log, affinities_pred = model(grids)
  let out := model s.params grids
  let pose_log := out.1
  let affinities_pred := out.2
  let s := { s with trace := s.trace ++ [Effect.forward s.trainingMode s.gradEnabled] }
  -- loss = pose_loss(pose_log, labels) + affinity_loss(affinities_pred, affinities)
  let loss := pose_loss pose_log labels + affinity_loss affinities_pred affinities
  let s := { s with trace := s.trace ++ [Effect.computeLoss] }
  -- loss.backward()
  let s := { s with grads := backwardFn s.params loss, trace := s.trace ++ [Effect.backward] }
  -- nn.utils.clip_grad_norm_(model.parameters(), clip_gradients)
  let s := { s with grads := clipNormFn clip_gradients s.grads,
                    trace := s.trace ++ [Effect.clipGradNorm clip_gradients] }
  -- optimizer.step()
  let pq := optStep s.optState s.params s.grads
  let s := { s with params := pq.1, optState := pq.2,
                    trace := s.trace ++ [Effect.optimizerStep] }
  -- return loss.item()
  (s, loss)

/-- A value stored in an evaluation step's output record: the record is a
heterogeneous dictionary holding pose log-probabilities, affinity predictions,
pose labels or experimental affinities. -/
inductive EvalVal (PL AP Lb Af : Type) where
  | pose_log : PL → EvalVal PL AP Lb Af
  | affinities_pred : AP → EvalVal PL AP Lb Af
  | labels : Lb → EvalVal PL AP Lb Af
  | affinities : Af → EvalVal PL AP Lb Af

/-- Embedding of `_evaluation_step_pose_and_affinity` (src/gnina/training.py
lines 387-424): `model.eval()`, forward under `torch.no_grad()`, and the
four-field output dictionary in source order. -/
def evaluation_step_pose_and_affinity (model : P → Gr → PL × AP)
    (s0 : StepState P G O) (batch : Gr × Lb × Af) :
    StepState P G O × List (String × EvalVal PL AP Lb Af) :=
  -- model.eval()
  let s := model_eval s0
  -- with torch.no_grad():
  let g0 := s.gradEnabled
  let s := { s with gradEnabled := false, trace := s.trace ++ [Effect.noGradEnter] }
  -- grids, labels, affinities = batch
  let grids := batch.1
  let labels := batch.2.1
  let affinities := batch.2.2
  -- pose_log, affinities_pred = model(grids)
  let out := model s.params grids
  let s := { s with trace := s.trace ++ [Effect.forward s.trainingMode s.gradEnabled] }
  -- end of the no_grad block: gradient tracking restored
  let s := { s with gradEnabled := g0, trace := s.trace ++ [Effect.noGradExit] }
  -- output = {...}
  let output : List (String × EvalVal PL AP Lb Af) :=
    [("pose_log", EvalVal.pose_log out.1),
     ("affinities_pred", EvalVal.affinities_pred out.2),
     ("labels", EvalVal.labels labels),
     ("affinities", EvalVal.affinities affinities)]
  (s, output)

/-- Embedding of `_evaluation_step_pose` (src/gnina/training.py lines
427-465): `model.eval()`, forward under `torch.no_grad()`, and the two-field
output dictionary in source order. -/
def evaluation_step_pose (model : P → Gr → PL) (s0 : StepState P G O)
    (batch : Gr × Lb) : StepState P G O × List (String × EvalVal PL AP Lb Af) :=
  -- model.eval()
  let s := model_eval s0
  -- with torch.no_grad():
  let g0 := s.gradEnabled
  let s := { s with gradEnabled := false, trace := s.trace ++ [Effect.noGradEnter] }
  -- grids, labels = batch
  let grids := batch.1
  let labels := batch.2
  -- pose_log = model(grids)
  let pose_log := model s.params grids
  let s := { s with trace := s.trace ++ [Effect.forward s.trainingMode s.gradEnabled] }
  -- end of the no_grad block: gradient tracking restored
  let s := { s with gradEnabled := g0, trace := s.trace ++ [Effect.noGradExit] }
  -- output = {...}
  let output : List (String × EvalVal PL AP Lb Af) :=
    [("pose_log", EvalVal.pose_log pose_log),
     ("labels", EvalVal.labels labels)]
  (s, output)

/-- Embedding of the task-mode selection on src/gnina/training.py line 587:
`affinity = True if args.affinity_pos is not None else False`. -/
def affinity_flag (affinity_pos : Option Nat) : Bool :=
  affinity_pos.isSome

/-- Embedding of the evaluator dispatch in `_setup_evaluator`
(src/gnina/training.py lines 493-502): in dual-task mode the engine's step is
`_evaluation_step_pose_and_affinity`, otherwise `_evaluation_step_pose`; this
function returns the output record the chosen step produces on its batch. -/
def setup_evaluator_record (affinity : Bool) (modelPA : P → Gr → PL × AP)
    (modelP : P → Gr → PL) (s t : StepState P G O) (batchPA : Gr × Lb × Af)
    (batchP : Gr × Lb) : List (String × EvalVal PL AP Lb Af) :=
  if affinity then (evaluation_step_pose_and_affinity modelPA s batchPA).2
  else (evaluation_step_pose modelP t batchP).2

/-- Lookup of a metric by name in the evaluator's metrics mapping
(`evaluator.state.metrics[key]`).  `none` models a `KeyError`. -/
def lookup_metric (mts : List (String × ℚ)) (key : String) : Option ℚ :=
  (mts.find? (fun p => p.1 == key)).map Prod.snd

/-- Embedding of the monitored-loss computation in `log_training_results`
(src/gnina/training.py lines 682-688):
`loss = mts["Loss (pose)"]` — a missing pose loss raises and is NOT caught —
then `try: loss += mts["Loss (affinity)"] except KeyError: pass`. -/
def monitored_loss (mts : List (String × ℚ)) : Option ℚ :=
  match lookup_metric mts "Loss (pose)" with
  | none => none
  | some l =>
      match lookup_metric mts "Loss (affinity)" with
      | some la => some (l + la)
      | none => some l

/-- Comparison direction of the plateau detector. -/
inductive SchedMode where
  | min : SchedMode
  | max : SchedMode
  deriving DecidableEq, Repr

/-- Plateau-detector bookkeeping: the best monitored value seen so far
(`none` before the first check) and the count of consecutive non-improving
checks. -/
structure PlateauState where
  best : Option ℚ
  num_bad_epochs : Nat
  deriving DecidableEq, Repr

/-- Modelled from the spec: the improvement test of the plateau-detection
controller (`torch.optim.lr_scheduler.ReduceLROnPlateau`, external to src/) —
under "larger is better" a value improves when it exceeds the best seen;
under "smaller is better" when it is below it; the first value always
improves. -/
def is_better (mode : SchedMode) (a : ℚ) (best : Option ℚ) : Bool :=
  match best, mode with
  | none, _ => true
  | some b, SchedMode.min => a < b
  | some b, SchedMode.max => b < a

/-- Modelled from the spec: the learning-rate reduction of the plateau
detector — each parameter group's rate is multiplied by the configured factor
and clamped (floored) at the configured minimum rate. -/
def reduce_lr (factor min_lr : ℚ) (lrs : List ℚ) : List ℚ :=
  lrs.map (fun lr => max (lr * factor) min_lr)

/-- Modelled from the spec: one check of the plateau-detection controller
(`ReduceLROnPlateau.step`, external to src/) — a monitored value that fails to
improve increments the consecutive-non-improvement count; once that count
exceeds the configured patience, the learning rates are reduced by the
configured factor, floored at the configured minimum, and the count resets. -/
def plateau_step (mode : SchedMode) (factor : ℚ) (patience : Nat) (min_lr : ℚ)
    (s : PlateauState) (lrs : List ℚ) (metric : ℚ) : PlateauState × List ℚ :=
  let s1 : PlateauState :=
    if is_better mode metric s.best then { best := some metric, num_bad_epochs := 0 }
    else { s with num_bad_epochs := s.num_bad_epochs + 1 }
  if patience < s1.num_bad_epochs then
    ({ s1 with num_bad_epochs := 0 }, reduce_lr factor min_lr lrs)
  else (s1, lrs)

/-- Embedding of the scheduler configuration on src/gnina/training.py lines
638-646: `ReduceLROnPlateau(optimizer, mode="max", factor=args.lr_reduce,
patience=args.lr_patience, min_lr=args.lr_min, ...)` — the comparison mode is
configured as "larger is better" even though the monitored quantity is a
loss. -/
def scheduler_mode : SchedMode := SchedMode.max

/-- Modelled from the spec: the optimizer construction on src/gnina/training.py
lines 597-602 — `optim.SGD(model.parameters(), lr=args.base_lr, ...)` over a
flat parameter iterable creates exactly one parameter group; each group is
represented here by its learning rate. -/
def sgd_param_groups (base_lr : ℚ) : List ℚ :=
  [base_lr]

/-- Embedding of the adaptive-rate part of `log_training_results`
(src/gnina/training.py lines 681-697): when `lr_dynamic` is set, compute the
monitored loss, feed it to the plateau detector configured with
`scheduler_mode`, then `assert len(optimizer.param_groups) == 1`.  An
uncaught `KeyError` (missing pose loss) or a failing assertion aborts the
run; both are modelled as `Except.error`. -/
def lr_update_step (lr_dynamic : Bool) (factor : ℚ) (patience : Nat)
    (min_lr : ℚ) (mts : List (String × ℚ)) (s : PlateauState) (lrs : List ℚ) :
    Except String (PlateauState × List ℚ) :=
  if lr_dynamic then
    match monitored_loss mts with
    | none => Except.error "KeyError: Loss (pose)"
    | some loss =>
        let r := plateau_step scheduler_mode factor patience min_lr s lrs loss
        if r.2.length = 1 then Except.ok r
        else Except.error "AssertionError: assert len(optimizer.param_groups) == 1"
  else Except.ok (s, lrs)

/-- A metric accumulator of the Metric Registry: an initial accumulator state,
a per-record update, and a final aggregation into a scalar. -/
structure MetricDef (A R : Type) where
  init : A
  update : A → R → A
  compute : A → ℚ

/-- The evaluator engine's state: the per-metric accumulator states and the
latest metrics mapping (`evaluator.state.metrics`). -/
structure EvalEngineState (A : Type) where
  accs : List A
  metrics : List (String × ℚ)

/-- Modelled from the spec: one invocation of the Evaluator Engine
(`evaluator.run(loader)` with metrics attached via `metric.attach(evaluator,
name)` in `_setup_evaluator`, src/gnina/training.py lines 504-508; the
engine itself is ignite, external to src/).  Every attached accumulator is
reset at the start of the pass, updated with the step output of every batch,
and aggregated into the metrics mapping at the end of the pass; the state left
over from any prior pass is discarded by the reset. -/
def evaluator_run {A R B : Type} (step : B → R)
    (ms : List (String × MetricDef A R)) (data : List B)
    (_prior : EvalEngineState A) : EvalEngineState A :=
  -- EPOCH_STARTED: every accumulator is reset to its initial state
  let accs0 := ms.map (fun nm => nm.2.init)
  -- ITERATION_COMPLETED: every accumulator consumes the step output
  let accs := data.foldl
    (fun accs b => (ms.zip accs).map (fun p => p.1.2.update p.2 (step b))) accs0
  -- EPOCH_COMPLETED: aggregate values are written to the metrics mapping
  { accs := accs
    metrics := (ms.zip accs).map (fun p => (p.1.1, p.1.2.compute p.2)) }

/-- The checkpoint controller: the configured retention count `n_saved` and
the epoch tags of the currently retained checkpoint artifacts, oldest
first. -/
structure CheckpointCtl where
  n_saved : Nat
  saved : List Nat
  deriving DecidableEq, Repr

/-- Modelled from the spec: one firing of the checkpoint handler (ignite
`Checkpoint.__call__`, external to src/) — persist a snapshot tagged with the
current epoch and, once the retained count exceeds the retention limit, evict
the oldest snapshot. -/
def checkpoint_save (c : CheckpointCtl) (epoch : Nat) : CheckpointCtl :=
  let saved := c.saved ++ [epoch]
  if c.n_saved < saved.length then { c with saved := saved.drop 1 }
  else { c with saved := saved }

/-- The epochs at which a handler registered with
`Events.EPOCH_COMPLETED(every=every)` fires during a run of `n` epochs:
the epochs in `1..n` divisible by `every`. -/
def cadence_epochs (every n : Nat) : List Nat :=
  ((List.range n).map (fun i => i + 1)).filter (fun e => e % every == 0)

/-- The checkpoint handler registration (src/gnina/training.py lines 729-731)
over a full run: the handler fires at every cadence hit of
`Events.EPOCH_COMPLETED(every=every)` during the `n` training epochs. -/
def run_epochs (every n : Nat) (c : CheckpointCtl) : CheckpointCtl :=
  (List.range n).foldl
    (fun c i => if (i + 1) % every == 0 then checkpoint_save c (i + 1) else c) c

/-- Modelled from the spec: construction of the checkpoint handler
(src/gnina/training.py lines 723-728; the artifact-presence check lives in
ignite's `Checkpoint`/`DiskSaver`, external to src/) — it requires the output
directory to contain no checkpoint artifact from a prior run and fails
otherwise, so that epoch-numbered snapshots from different runs are never
mixed. -/
def checkpoint_create (existing : List String) (n_saved : Nat) :
    Except String CheckpointCtl :=
  if existing.isEmpty then Except.ok { n_saved := n_saved, saved := [] }
  else Except.error "checkpoint files are already present in the output directory"

/-- Skeleton of `training` (src/gnina/training.py lines 513-753) around the
checkpoint lifecycle: the `Checkpoint` handler is constructed (line 723)
before `trainer.run` (line 737), so a failing construction aborts the run
before any training epoch executes; on success the run executes all
`iterations` epochs with the checkpoint handler firing on its cadence.
`existing` lists the checkpoint artifacts already present in the output
directory; the result carries the number of epochs executed and the final
checkpoint controller state. -/
def training_run (existing : List String)
    (iterations checkpoint_every num_checkpoints : Nat) :
    Except String (Nat × CheckpointCtl) :=
  match checkpoint_create existing num_checkpoints with
  | Except.error e => Except.error e
  | Except.ok c => Except.ok (iterations, run_epochs checkpoint_every iterations c)

/-! ## Helper lemmas -/

/-- Folding over a filtered list is folding with a guard. -/
theorem foldl_filter_eq_foldl_guard {α β : Type} (p : α → Bool) (f : β → α → β) :
    ∀ (l : List α) (b : β),
      (l.filter p).foldl f b = l.foldl (fun s a => if p a then f s a else s) b := by
  intro l
  induction l with
  | nil => intro b; rfl
  | cons a l ih =>
      intro b
      rw [List.filter_cons]
      by_cases h : p a = true
      · simp only [h, if_true, List.foldl_cons, ih]
      · simp only [h, Bool.false_eq_true, if_false, List.foldl_cons]
        exact ih b

/-- Saving a checkpoint never changes the configured retention count. -/
theorem checkpoint_save_n_saved (c : CheckpointCtl) (e : Nat) :
    (checkpoint_save c e).n_saved = c.n_saved := by
  unfold checkpoint_save
  dsimp only
  split <;> rfl

/-- Folding checkpoint saves over a list of epochs keeps exactly the last
`n_saved` entries of the accumulated epoch list, provided the retention count
is positive and the controller starts within its capacity. -/
theorem foldl_checkpoint_save_saved :
    ∀ (es : List Nat) (c : CheckpointCtl), 1 ≤ c.n_saved →
      c.saved.length ≤ c.n_saved →
      (es.foldl checkpoint_save c).saved
        = (c.saved ++ es).drop ((c.saved ++ es).length - c.n_saved) := by
  intro es
  induction es with
  | nil =>
      intro c h1 h2
      simp [Nat.sub_eq_zero_of_le, h2]
  | cons e es ih =>
      intro c h1 h2
      rw [List.foldl_cons]
      by_cases hfull : c.n_saved < (c.saved ++ [e]).length
      · -- the controller was at capacity: the oldest snapshot is evicted
        have hlen : c.saved.length = c.n_saved := by
          simp only [List.length_append, List.length_singleton] at hfull
          omega
        have hstep : checkpoint_save c e
            = { c with saved := (c.saved ++ [e]).drop 1 } := by
          unfold checkpoint_save
          simp only [if_pos hfull]
        rw [hstep]
        have hle : ((c.saved ++ [e]).drop 1).length ≤ c.n_saved := by
          simp [hlen]
        have := ih { c with saved := (c.saved ++ [e]).drop 1 } h1 hle
        rw [this]
        have hone : 1 ≤ (c.saved ++ [e]).length := by
          simp
        rw [← List.drop_append_of_le_length hone, List.drop_drop]
        have harr : (c.saved ++ [e]) ++ es = c.saved ++ e :: es := by
          simp
        rw [harr]
        congr 1
        have h1len : ((c.saved ++ e :: es).drop 1).length
            = c.saved.length + es.length := by
          simp [List.length_drop]
        rw [h1len]
        simp only [List.length_append, List.length_cons]
        omega
      · -- still within capacity: the snapshot is appended and nothing evicted
        have hstep : checkpoint_save c e = { c with saved := c.saved ++ [e] } := by
          unfold checkpoint_save
          simp only [if_neg hfull]
        rw [hstep]
        have hle : (c.saved ++ [e]).length ≤ c.n_saved := by
          simp only [List.length_append, List.length_singleton] at hfull ⊢
          omega
        have := ih { c with saved := c.saved ++ [e] } h1 hle
        rw [this]
        simp

/-- `run_epochs` is the fold of `checkpoint_save` over the cadence epochs. -/
theorem run_epochs_eq_foldl (every n : Nat) (c : CheckpointCtl) :
    run_epochs every n c = (cadence_epochs every n).foldl checkpoint_save c := by
  unfold run_epochs cadence_epochs
  rw [foldl_filter_eq_foldl_guard, List.foldl_map]

/-- The cadence epochs are strictly increasing. -/
theorem cadence_epochs_increasing (every n : Nat) :
    (cadence_epochs every n).Pairwise (· < ·) := by
  unfold cadence_epochs
  apply List.Pairwise.filter
  exact (List.pairwise_lt_range n).map _ (fun a b h => Nat.add_lt_add_right h 1)

/-- The plateau detector never changes the number of parameter groups. -/
theorem plateau_step_length (mode : SchedMode) (factor : ℚ) (patience : Nat)
    (min_lr : ℚ) (s : PlateauState) (lrs : List ℚ) (metric : ℚ) :
    ((plateau_step mode factor patience min_lr s lrs metric).2).length
      = lrs.length := by
  unfold plateau_step reduce_lr
  dsimp only
  split <;> (split <;> simp)

/-! ## Claims -/

/-- C1: in dual-task (pose-and-affinity) mode, the scalar loss returned by one
training step equals the pose classification loss on that batch plus the
affinity loss on that batch — the unweighted, unscaled sum of the two loss
values computed independently on the same batch with the same (pre-update)
model parameters. -/
theorem claim_C1_dual_task_loss_is_unweighted_sum
    (model : P → Gr → PL × AP) (pose_loss : PL → Lb → ℚ)
    (affinity_loss : AP → Af → ℚ) (backwardFn : P → ℚ → G)
    (clipNormFn : ℚ → G → G) (optStep : O → P → G → P × O) (gzero : G)
    (clip_gradients : ℚ) (s : StepState P G O) (grids : Gr) (labels : Lb)
    (affinities : Af) :
    (train_step_pose_and_affinity model pose_loss affinity_loss backwardFn
        clipNormFn optStep gzero clip_gradients s (grids, labels, affinities)).2
      = pose_loss (model s.params grids).1 labels
        + affinity_loss (model s.params grids).2 affinities := rfl

/-- C4: for both task-mode variants, one training step performs its side
effects in this fixed order: zero accumulated gradients, forward pass, loss
computation, backpropagation, clipping of the gradient norm (the by-norm
primitive `clipGradNorm`, not the per-element `clipGradValue`) at the
configured threshold, and finally the optimizer update.  (`model.train()`
precedes these, and the forward pass runs in training mode.) -/
theorem claim_C4_train_step_effect_order
    (modelP : P → Gr → PL) (modelPA : P → Gr → PL × AP)
    (pose_loss : PL → Lb → ℚ) (affinity_loss : AP → Af → ℚ)
    (backwardFn : P → ℚ → G) (clipNormFn : ℚ → G → G)
    (optStep : O → P → G → P × O) (gzero : G) (clip_gradients : ℚ)
    (s t : StepState P G O) (grids grids2 : Gr) (labels labels2 : Lb)
    (affinities : Af) :
    (train_step_pose modelP pose_loss backwardFn clipNormFn optStep gzero
        clip_gradients s (grids, labels)).1.trace
      = s.trace ++ [Effect.modelTrain, Effect.zeroGrad,
          Effect.forward true s.gradEnabled, Effect.computeLoss,
          Effect.backward, Effect.clipGradNorm clip_gradients,
          Effect.optimizerStep]
    ∧ (train_step_pose_and_affinity modelPA pose_loss affinity_loss backwardFn
        clipNormFn optStep gzero clip_gradients t
        (grids2, labels2, affinities)).1.trace
      = t.trace ++ [Effect.modelTrain, Effect.zeroGrad,
          Effect.forward true t.gradEnabled, Effect.computeLoss,
          Effect.backward, Effect.clipGradNorm clip_gradients,
          Effect.optimizerStep] := by
  constructor <;>
    simp [train_step_pose, train_step_pose_and_affinity, model_train, zero_grad]

/-- C3: the record returned by an evaluation step always contains the fields
`pose_log` and `labels`; the fields `affinities_pred` and `affinities` are
present iff the run is in dual-task mode (an affinity target column is
configured), in which case the record contains exactly the four fields
`pose_log`, `affinities_pred`, `labels`, `affinities`. -/
theorem claim_C3_evaluation_record_fields
    (affinity_pos : Option Nat) (modelPA : P → Gr → PL × AP)
    (modelP : P → Gr → PL) (s t : StepState P G O) (batchPA : Gr × Lb × Af)
    (batchP : Gr × Lb) :
    let keys := (setup_evaluator_record (affinity_flag affinity_pos) modelPA
        modelP s t batchPA batchP).map Prod.fst
    ("pose_log" ∈ keys ∧ "labels" ∈ keys)
    ∧ ("affinities_pred" ∈ keys ↔ affinity_flag affinity_pos = true)
    ∧ ("affinities" ∈ keys ↔ affinity_flag affinity_pos = true)
    ∧ (affinity_flag affinity_pos = true →
        keys = ["pose_log", "affinities_pred", "labels", "affinities"]) := by
  cases affinity_pos <;>
    simp [setup_evaluator_record, affinity_flag, evaluation_step_pose,
      evaluation_step_pose_and_affinity]

/-- C10: an evaluation step never mutates the model's parameters (nor the
gradients or optimizer state): it switches the model to inference mode and
runs the forward pass with gradient tracking disabled (`Effect.forward false
false` between `noGradEnter` and `noGradExit`), for both variants. -/
theorem claim_C10_evaluation_preserves_parameters
    (modelPA : P → Gr → PL × AP) (modelP : P → Gr → PL)
    (s t : StepState P G O) (grids grids2 : Gr) (labels labels2 : Lb)
    (affinities : Af) :
    let ePA := evaluation_step_pose_and_affinity modelPA s
        (grids, labels, affinities)
    let eP : StepState P G O × List (String × EvalVal PL AP Lb Af) :=
        evaluation_step_pose modelP t (grids2, labels2)
    (ePA.1.params = s.params ∧ ePA.1.grads = s.grads
      ∧ ePA.1.optState = s.optState ∧ ePA.1.trainingMode = false
      ∧ ePA.1.gradEnabled = s.gradEnabled
      ∧ ePA.1.trace = s.trace ++ [Effect.modelEval, Effect.noGradEnter,
          Effect.forward false false, Effect.noGradExit])
    ∧ (eP.1.params = t.params ∧ eP.1.grads = t.grads
      ∧ eP.1.optState = t.optState ∧ eP.1.trainingMode = false
      ∧ eP.1.gradEnabled = t.gradEnabled
      ∧ eP.1.trace = t.trace ++ [Effect.modelEval, Effect.noGradEnter,
          Effect.forward false false, Effect.noGradExit]) := by
  refine ⟨⟨rfl, rfl, rfl, rfl, rfl, ?_⟩, ⟨rfl, rfl, rfl, rfl, rfl, ?_⟩⟩ <;>
    simp [evaluation_step_pose_and_affinity, evaluation_step_pose, model_eval]

/-- C7: the metrics mapping produced by an evaluation pass is fully reset at
the start of the pass: two passes of the evaluator over the same dataset with
the same frozen step function produce identical metrics regardless of the
engine state left by any prior pass, and in particular running the evaluator
twice in a row yields the same metrics both times. -/
theorem claim_C7_evaluator_pass_reset {A R B : Type} (step : B → R)
    (ms : List (String × MetricDef A R)) (data : List B)
    (s1 s2 : EvalEngineState A) :
    (evaluator_run step ms data s1).metrics
        = (evaluator_run step ms data s2).metrics
    ∧ (evaluator_run step ms data (evaluator_run step ms data s1)).metrics
        = (evaluator_run step ms data s1).metrics := ⟨rfl, rfl⟩

/-- C2: with the scheduler configured as in the source (comparison mode
"larger is better", `scheduler_mode = SchedMode.max`, while the monitored
quantity is a loss), a monitored value that fails to improve after the
consecutive-non-improvement count has already reached the configured patience
makes the next check set the learning rate to `previous_rate × reduce_factor`
clamped at the configured minimum rate; once the rate sits at that floor (for
a reduction factor ≤ 1 and a nonnegative floor) the same check leaves it
unchanged. -/
theorem claim_C2_plateau_reduction
    (factor min_lr lr metric : ℚ) (patience : Nat) (s : PlateauState)
    (hbad : is_better scheduler_mode metric s.best = false)
    (hcount : patience ≤ s.num_bad_epochs) :
    (plateau_step scheduler_mode factor patience min_lr s [lr] metric).2
        = [max (lr * factor) min_lr]
    ∧ (lr = min_lr → 0 ≤ min_lr → factor ≤ 1 →
        (plateau_step scheduler_mode factor patience min_lr s [lr] metric).2
          = [min_lr]) := by
  have hred : (plateau_step scheduler_mode factor patience min_lr s [lr]
      metric).2 = [max (lr * factor) min_lr] := by
    simp [plateau_step, hbad, reduce_lr, Nat.lt_succ_of_le hcount]
  refine ⟨hred, fun h0 h1 h2 => ?_⟩
  rw [hred, h0]
  have hmul : min_lr * factor ≤ min_lr := by
    calc min_lr * factor ≤ min_lr * 1 := mul_le_mul_of_nonneg_left h2 h1
    _ = min_lr := mul_one min_lr
  rw [max_eq_right hmul]

/-- Witness for C2 at a concrete input: patience 3 already exhausted, the
constant monitored loss 5 does not "improve" under the max-mode comparison,
and the rate 1 is reduced by factor 1/10 with floor 1/100. -/
theorem claim_C2_plateau_reduction_witness :
    (plateau_step scheduler_mode (1/10) 3 (1/100)
        { best := some 5, num_bad_epochs := 3 } [1] 5).2
      = [max (1 * (1/10)) (1/100)] :=
  (claim_C2_plateau_reduction (1/10) (1/100) 1 5 3
    { best := some 5, num_bad_epochs := 3 } (by decide) (by decide)).1

/-- C5: starting a run against an output directory that already contains a
checkpoint artifact fails at startup — the checkpoint handler's construction
errors before `trainer.run` is reached, so no training epoch executes. -/
theorem claim_C5_preexisting_checkpoint_aborts
    (existing : List String) (iterations checkpoint_every num_checkpoints : Nat)
    (h : existing ≠ []) :
    training_run existing iterations checkpoint_every num_checkpoints
      = Except.error
          "checkpoint files are already present in the output directory" := by
  cases existing with
  | nil => exact absurd rfl h
  | cons a l => rfl

/-- Witness for C5 at a concrete input: one pre-existing checkpoint artifact
aborts a 50-epoch run. -/
theorem claim_C5_preexisting_checkpoint_aborts_witness :
    training_run ["checkpoint_100.pt"] 50 10 1
      = Except.error
          "checkpoint files are already present in the output directory" :=
  claim_C5_preexisting_checkpoint_aborts ["checkpoint_100.pt"] 50 10 1
    (by decide)

/-- C6: after a run of `n` epochs whose checkpoint cadence produces more hits
than the retention count `k ≥ 1`, exactly `k` checkpoint artifacts remain and
they are the `k` most recent cadence epochs (the strictly increasing cadence
sequence with all but its last `k` entries evicted, oldest first). -/
theorem claim_C6_checkpoint_retention (every n k : Nat) (h1 : 1 ≤ k)
    (h2 : k < (cadence_epochs every n).length) :
    (run_epochs every n { n_saved := k, saved := [] }).saved
      = (cadence_epochs every n).drop ((cadence_epochs every n).length - k)
    ∧ (run_epochs every n { n_saved := k, saved := [] }).saved.length = k
    ∧ (cadence_epochs every n).Pairwise (· < ·) := by
  have hfold := foldl_checkpoint_save_saved (cadence_epochs every n)
    { n_saved := k, saved := [] } h1 (by simp)
  rw [run_epochs_eq_foldl]
  simp only [List.nil_append] at hfold
  refine ⟨hfold, ?_, cadence_epochs_increasing every n⟩
  rw [hfold, List.length_drop]
  omega

/-- Witness for C6 at a concrete input: cadence 2 over 10 epochs hits at
epochs 2,4,6,8,10; with retention 3 the artifacts for epochs 6,8,10 remain. -/
theorem claim_C6_checkpoint_retention_witness :
    (run_epochs 2 10 { n_saved := 3, saved := [] }).saved
      = (cadence_epochs 2 10).drop ((cadence_epochs 2 10).length - 3)
    ∧ (run_epochs 2 10 { n_saved := 3, saved := [] }).saved.length = 3
    ∧ (cadence_epochs 2 10).Pairwise (· < ·) :=
  claim_C6_checkpoint_retention 2 10 3 (by decide) (by decide)

/-- C8: in adaptive-rate mode, the monitored quantity fed to the plateau
detector equals the aggregated pose loss plus the aggregated affinity loss
when the affinity-loss metric exists; when it is absent (pose-only mode) the
contribution is zero — the pose loss alone — and the computation succeeds
instead of failing with a missing-key error. -/
theorem claim_C8_monitored_loss_tolerates_missing_affinity
    (mts : List (String × ℚ)) (p : ℚ)
    (hp : lookup_metric mts "Loss (pose)" = some p) :
    (∀ la, lookup_metric mts "Loss (affinity)" = some la →
        monitored_loss mts = some (p + la))
    ∧ (lookup_metric mts "Loss (affinity)" = none →
        monitored_loss mts = some p)
    ∧ (monitored_loss mts).isSome = true := by
  refine ⟨fun la hla => ?_, fun hna => ?_, ?_⟩
  · simp [monitored_loss, hp, hla]
  · simp [monitored_loss, hp, hna]
  · cases h : lookup_metric mts "Loss (affinity)" <;>
      simp [monitored_loss, hp, h]

/-- Witness for C8 at a concrete input: with pose loss 2 and affinity loss 3
the monitored quantity is their sum. -/
theorem claim_C8_monitored_loss_tolerates_missing_affinity_witness :
    monitored_loss [("Loss (pose)", 2), ("Loss (affinity)", 3)] = some (2 + 3) :=
  (claim_C8_monitored_loss_tolerates_missing_affinity
    [("Loss (pose)", 2), ("Loss (affinity)", 3)] 2 rfl).1 3 rfl

/-- C9: the optimizer the run constructs (`optim.SGD(model.parameters(), ...)`)
has exactly one parameter group, and under adaptive-rate mode the single-group
precondition is enforced by an assertion on every cadence check: a cadence
check that sees more than one (or zero) parameter groups aborts with an
assertion failure. -/
theorem claim_C9_single_param_group_enforced
    (base_lr factor min_lr l : ℚ) (patience : Nat)
    (mts : List (String × ℚ)) (s : PlateauState) (lrs : List ℚ)
    (hm : monitored_loss mts = some l) (hn : lrs.length ≠ 1) :
    (sgd_param_groups base_lr).length = 1
    ∧ lr_update_step true factor patience min_lr mts s lrs
        = Except.error
            "AssertionError: assert len(optimizer.param_groups) == 1" := by
  refine ⟨rfl, ?_⟩
  simp only [lr_update_step, if_true, hm]
  rw [if_neg]
  rw [plateau_step_length]
  exact hn

/-- Witness for C9 at a concrete input: a two-group optimizer aborts the
adaptive-rate cadence check. -/
theorem claim_C9_single_param_group_enforced_witness :
    (sgd_param_groups 1).length = 1
    ∧ lr_update_step true (1/10) 5 0 [("Loss (pose)", 2)]
        { best := none, num_bad_epochs := 0 } [1, 1]
        = Except.error
            "AssertionError: assert len(optimizer.param_groups) == 1" :=
  claim_C9_single_param_group_enforced 1 (1/10) 0 2 5 [("Loss (pose)", 2)]
    { best := none, num_bad_epochs := 0 } [1, 1] rfl (by decide)

end Gnina
